import Mathlib

/-!
Verification of `cspstiff.py` (claysciences/PSTiff): a shallow embedding of the
`CSPSTiff` layer store and its TIFF-writing entry point, together with proofs of
the specified properties.

The source file defines a class holding an ordered list of `(pixels, offset)`
layers and a canvas shape, normalizes 3-channel inputs to RGBA, builds one
`PsdLayer` record per stored layer, and writes a TIFF via `tifffile.imwrite`
with fixed parameters, threading a module-level shared parameter dictionary.

Arrays are embedded as a shape triple plus a total indexing function
(row → col → channel → 8-bit sample, values kept as `Nat`); stateful Python code
becomes explicit state passing; the `print` diagnostics become an emitted list
of notices; exceptions become `Except` results.
-/

set_option autoImplicit false

namespace PSTiff

/-- A 3-dimensional `numpy` array of unsigned 8-bit samples: explicit shape
`(shape0, shape1, shape2)` = (height, width, channels) and a total indexing
function. Only indices below the shape bounds are meaningful. -/
structure NpArray3 where
  shape0 : Nat
  shape1 : Nat
  shape2 : Nat
  val : Nat → Nat → Nat → Nat

/-- Diagnostic notices: the embedding of the two `print` calls in
`CSPSTiff.add_layer`. `channelCount` stands for
`"IMG HAS ONLY 3 CHANNELS (should be RGBA)"`; `shapeMismatch` for
`"IMG shape is ..., existing shape is ..."` with the two shapes printed. -/
inductive Notice where
  | channelCount : Notice
  | shapeMismatch : Nat × Nat → Nat × Nat → Notice
  deriving DecidableEq, Repr

/-- Embedding of lines 68–72 of the source: `np.zeros((h, w, 4), uint8)`,
then `rgba_image[:, :, :3] = img` and `rgba_image[:, :, 3] = 128`. -/
def rgbaOf (img : NpArray3) : NpArray3 :=
  { shape0 := img.shape0
    shape1 := img.shape1
    shape2 := 4
    val := fun r c ch =>
      if ch < 3 then img.val r c ch
      else if ch = 3 then 128
      else 0 }

/-- The channel normalization step of `add_layer`: a 3-channel image is
replaced by its RGBA extension, any other image is left untouched. -/
def normalize (img : NpArray3) : NpArray3 :=
  if img.shape2 = 3 then rgbaOf img else img

/-- PSD channel identifiers used by `_prep_layers` (from the external
`psdtags` enumeration; only the members the source uses are modelled). -/
inductive PsdChannelId where
  | TRANSPARENCY_MASK : PsdChannelId
  | CHANNEL0 : PsdChannelId
  | CHANNEL1 : PsdChannelId
  | CHANNEL2 : PsdChannelId
  deriving DecidableEq, Repr

/-- PSD channel compression codecs (only the member the source uses, plus
`RAW` so that the fixed choice is not vacuous). -/
inductive PsdCompressionType where
  | RAW : PsdCompressionType
  | ZIP_PREDICTED : PsdCompressionType
  deriving DecidableEq, Repr

/-- One per-channel payload of a layer record: channel id, codec, and the
2-dimensional plane of samples extracted from the layer. -/
structure PsdChannel where
  channelid : PsdChannelId
  compression : PsdCompressionType
  data : Nat → Nat → Nat

/-- A PSD bounding rectangle `(top, left, bottom, right)`. -/
structure PsdRectangle where
  top : Int
  left : Int
  bottom : Int
  right : Int
  deriving DecidableEq, Repr

/-- PSD blend modes (only the member the source uses, plus one other). -/
inductive PsdBlendMode where
  | NORMAL : PsdBlendMode
  | MULTIPLY : PsdBlendMode
  deriving DecidableEq, Repr

/-- PSD clipping types. -/
inductive PsdClippingType where
  | BASE : PsdClippingType
  | NON_BASE : PsdClippingType
  deriving DecidableEq, Repr

/-- PSD layer flags; the source sets `PHOTOSHOP5 | TRANSPARENCY_PROTECTED`,
embedded as the list of set flags. -/
inductive PsdLayerFlag where
  | TRANSPARENCY_PROTECTED : PsdLayerFlag
  | VISIBLE : PsdLayerFlag
  | PHOTOSHOP5 : PsdLayerFlag
  deriving DecidableEq, Repr

/-- PSD block keys used by the source. -/
inductive PsdKey where
  | PATTERNS : PsdKey
  | LAYER : PsdKey
  | UNICODE_LAYER_NAME : PsdKey
  deriving DecidableEq, Repr

/-- A keyed string entry (the source stores the unicode layer name this way). -/
structure PsdString where
  key : PsdKey
  value : String
  deriving DecidableEq, Repr

/-- The empty layer mask the source passes as `PsdLayerMask()`. -/
structure PsdLayerMask where
  deriving DecidableEq, Repr

/-- One per-layer record of the layered metadata block, mirroring the
`PsdLayer(...)` construction in `_prep_layers`. -/
structure PsdLayer where
  name : String
  rectangle : PsdRectangle
  channels : List PsdChannel
  mask : PsdLayerMask
  opacity : Nat
  blendmode : PsdBlendMode
  clipping : PsdClippingType
  flags : List PsdLayerFlag
  info : List PsdString

/-- The `PsdLayers` collection the source builds in `write`. -/
structure PsdLayers where
  key : PsdKey
  has_transparency : Bool
  layers : List PsdLayer

/-- PSD container format markers. -/
inductive PsdFormat where
  | LE32BIT : PsdFormat
  | BE32BIT : PsdFormat
  deriving DecidableEq, Repr

/-- The user-mask descriptor (fixed red tint at 50% opacity in the source). -/
structure PsdUserMask where
  colorspaceRGB : Bool
  components : Nat × Nat × Nat × Nat
  opacity : Nat
  deriving DecidableEq, Repr

/-- The filter-mask descriptor (same fixed red tint). -/
structure PsdFilterMask where
  colorspaceRGB : Bool
  components : Nat × Nat × Nat × Nat
  opacity : Nat
  deriving DecidableEq, Repr

/-- Entries of the `info` list of the parameter dictionary. -/
inductive PsdInfoItem where
  | empty : PsdKey → PsdInfoItem
  | filterMask : PsdFilterMask → PsdInfoItem

/-- The module-level shared parameter dictionary
`TIFFIMAGESOURCEDATA_PARAMS_DICT`, embedded as a record whose fields are the
dictionary's ordered keys. -/
structure ParamsDict where
  name : String
  psdformat : PsdFormat
  layers : Option PsdLayers
  usermask : PsdUserMask
  info : List PsdInfoItem

/-- Initial value of the module-level dictionary (lines 29–46 of the source):
`layers` starts out `None`, the two masks are RGB red tint at 50% opacity. -/
def TIFFIMAGESOURCEDATA_PARAMS_DICT : ParamsDict :=
  { name := "Layered TIFF"
    psdformat := PsdFormat.LE32BIT
    layers := none
    usermask :=
      { colorspaceRGB := true, components := (65535, 0, 0, 0), opacity := 50 }
    info :=
      [ PsdInfoItem.empty PsdKey.PATTERNS
      , PsdInfoItem.filterMask
          { colorspaceRGB := true, components := (65535, 0, 0, 0), opacity := 50 } ] }

/-- The `TiffImageSourceData` object, built by splatting the parameter
dictionary (`TiffImageSourceData(**TIFFIMAGESOURCEDATA_PARAMS_DICT)`). -/
structure TiffImageSourceData where
  name : String
  psdformat : PsdFormat
  layers : Option PsdLayers
  usermask : PsdUserMask
  info : List PsdInfoItem

/-- Splatting the dictionary into the `TiffImageSourceData` constructor. -/
def TiffImageSourceData.ofParams (d : ParamsDict) : TiffImageSourceData :=
  { name := d.name
    psdformat := d.psdformat
    layers := d.layers
    usermask := d.usermask
    info := d.info }

/-- The ICC profile blob `imagecodecs.cms_profile('srgb')`: an external byte
constant, embedded symbolically. -/
inductive ICCProfileBytes where
  | srgb : ICCProfileBytes
  deriving DecidableEq, Repr

/-- One entry of the `extratags` argument to `tifffile.imwrite`: either the
tuple produced by `image_source_data.tifftag()` or an explicit
`(code, dtype, count, value, writeonce)` tuple. -/
inductive ExtraTag where
  | imageSourceDataTag : TiffImageSourceData → ExtraTag
  | byteTag : Nat → Nat → Option Nat → ICCProfileBytes → Bool → ExtraTag

/-- The full argument record of the single `tifffile.imwrite` call in
`write`; producing this record is the embedding of writing the file. -/
structure TiffWriteCall where
  filepath : String
  data : NpArray3
  photometric : String
  compression : String
  resolution : (Nat × Nat) × (Nat × Nat)
  resolutionunit : String
  metadata : Option String
  extratags : List ExtraTag

/-- Errors `write` can surface: the source's
`raise Exception("not enough layers")` (named `EmptyInputError` in the spec's
error taxonomy) and a propagated failure of the file-writing library call. -/
inductive WriteError where
  | EmptyInputError : WriteError
  | FileWriteError : WriteError
  deriving DecidableEq, Repr

/-- Alpha-over blend of one positioned RGBA layer onto an accumulator canvas.

Modelled from the spec: the external `psdtags.overlay` compositing —
"starting from an empty (zero-filled) canvas of the stored shape, for each
layer in insertion order, blend its RGBA pixels onto the accumulator at its
offset using standard alpha compositing (`out = src*srcA + dst*(1-srcA)`,
alpha accumulated analogously), clipped to canvas bounds". -/
def compositeStep (acc : NpArray3) (l : NpArray3 × (Int × Int)) : NpArray3 :=
  let img := l.1
  let r0 := l.2.1
  let c0 := l.2.2
  { acc with
    val := fun r c ch =>
      if r < acc.shape0 ∧ c < acc.shape1 ∧
          r0 ≤ (r : Int) ∧ (r : Int) < r0 + img.shape0 ∧
          c0 ≤ (c : Int) ∧ (c : Int) < c0 + img.shape1 then
        let sr := ((r : Int) - r0).toNat
        let sc := ((c : Int) - c0).toNat
        let srcA := img.val sr sc 3
        if ch < 3 then
          (img.val sr sc ch * srcA + acc.val r c ch * (255 - srcA)) / 255
        else if ch = 3 then
          (srcA * 255 + acc.val r c 3 * (255 - srcA)) / 255
        else acc.val r c ch
      else acc.val r c ch }

/-- Modelled from the spec: the external `psdtags.overlay` function, which the
source calls as `overlay(*self.layers, shape=self.shape)` — sequential
alpha-over compositing of all layers in insertion order onto a zero-filled
canvas of the stored shape. The function is deterministic. -/
def overlay (layers : List (NpArray3 × (Int × Int))) (shape : Option (Nat × Nat)) :
    NpArray3 :=
  let h := (shape.getD (0, 0)).1
  let w := (shape.getD (0, 0)).2
  layers.foldl compositeStep
    { shape0 := h, shape1 := w, shape2 := 4, val := fun _ _ _ => 0 }

/-- The layer store: mirrors the two attributes set in `CSPSTiff.__init__`
(`self.shape`, possibly `None`, and the ordered list `self.layers` of
`(img, offset)` pairs). -/
structure CSPSTiff where
  shape : Option (Nat × Nat)
  layers : List (NpArray3 × (Int × Int))

namespace CSPSTiff

/-- `CSPSTiff(shape)`: construction with an optional canvas shape and an
empty layer list. -/
def init (shape : Option (Nat × Nat)) : CSPSTiff :=
  { shape := shape, layers := [] }

/-- Embedding of `CSPSTiff.add_layer(img, offset)` (lines 59–80): normalize a
3-channel image to RGBA with constant alpha 128 (emitting a notice), set the
canvas shape from the first layer when unset, emit a notice on a
height/width mismatch with an established shape, and append the
`(img, offset)` pair. Returns the new state and the notices printed. -/
def add_layer (s : CSPSTiff) (img : NpArray3) (offset : Int × Int) :
    CSPSTiff × List Notice :=
  let channelNotices : List Notice :=
    if img.shape2 = 3 then [Notice.channelCount] else []
  let img' := normalize img
  match s.shape with
  | none =>
      ({ shape := some (img'.shape0, img'.shape1)
         layers := s.layers ++ [(img', offset)] }, channelNotices)
  | some sh =>
      if (img'.shape0, img'.shape1) ≠ sh then
        ({ s with layers := s.layers ++ [(img', offset)] },
         channelNotices ++ [Notice.shapeMismatch (img'.shape0, img'.shape1) sh])
      else
        ({ s with layers := s.layers ++ [(img', offset)] }, channelNotices)

/-- The body of the `for` loop of `_prep_layers`: the `PsdLayer` record built
for one stored layer at index `layer_num`. -/
def prepOne (layer_num : Nat) (layer : NpArray3) (offset : Int × Int) : PsdLayer :=
  let layer_name := "layer_" ++ toString layer_num
  { name := layer_name
    rectangle :=
      { top := offset.1
        left := offset.2
        bottom := offset.1 + (layer.shape0 : Int)
        right := offset.2 + (layer.shape1 : Int) }
    channels :=
      [ { channelid := PsdChannelId.TRANSPARENCY_MASK
          compression := PsdCompressionType.ZIP_PREDICTED
          data := fun r c => layer.val r c 3 }
      , { channelid := PsdChannelId.CHANNEL0
          compression := PsdCompressionType.ZIP_PREDICTED
          data := fun r c => layer.val r c 0 }
      , { channelid := PsdChannelId.CHANNEL1
          compression := PsdCompressionType.ZIP_PREDICTED
          data := fun r c => layer.val r c 1 }
      , { channelid := PsdChannelId.CHANNEL2
          compression := PsdCompressionType.ZIP_PREDICTED
          data := fun r c => layer.val r c 2 } ]
    mask := {}
    opacity := 255
    blendmode := PsdBlendMode.NORMAL
    clipping := PsdClippingType.BASE
    flags := [PsdLayerFlag.PHOTOSHOP5, PsdLayerFlag.TRANSPARENCY_PROTECTED]
    info := [{ key := PsdKey.UNICODE_LAYER_NAME, value := layer_name }] }

/-- The `for` loop of `_prep_layers`, with the running `layer_num` counter
made explicit. -/
def prepAux : Nat → List (NpArray3 × (Int × Int)) → List PsdLayer
  | _, [] => []
  | n, (l, off) :: rest => prepOne n l off :: prepAux (n + 1) rest

/-- Embedding of `CSPSTiff._prep_layers` (lines 83–133): one `PsdLayer`
record per stored layer, counter starting at 0. -/
def prep_layers (s : CSPSTiff) : List PsdLayer :=
  prepAux 0 s.layers

/-- Embedding of `CSPSTiff.write(filepath)` (lines 135–174). The shared
module dictionary is threaded explicitly; a possible failure of the external
`tifffile.imwrite` call is modelled by the flag `imwriteRaises`. Returns the
result (the recorded `imwrite` call on success, an error otherwise) together
with the dictionary state after the call. -/
def write (s : CSPSTiff) (d : ParamsDict) (filepath : String)
    (imwriteRaises : Bool) : Except WriteError TiffWriteCall × ParamsDict :=
  if s.layers.length = 0 then
    (Except.error WriteError.EmptyInputError, d)
  else
    let ll : PsdLayers :=
      { key := PsdKey.LAYER
        has_transparency := false
        layers := s.prep_layers }
    let d1 : ParamsDict := { d with layers := some ll }
    let image_source_data := TiffImageSourceData.ofParams d1
    let composite := overlay s.layers s.shape
    if imwriteRaises then
      (Except.error WriteError.FileWriteError, d1)
    else
      (Except.ok
        { filepath := filepath
          data := composite
          photometric := "rgb"
          compression := "adobe_deflate"
          resolution := ((720000, 10000), (720000, 10000))
          resolutionunit := "inch"
          metadata := none
          extratags :=
            [ ExtraTag.imageSourceDataTag image_source_data
            , ExtraTag.byteTag 34675 7 none ICCProfileBytes.srgb true ] },
       { d1 with layers := none })

/-- Running a whole sequence of `add_layer` calls from a given state,
discarding notices (used to speak about "the Nth `add_layer` call"). -/
def runAddLayers (s : CSPSTiff) : List (NpArray3 × (Int × Int)) → CSPSTiff
  | [] => s
  | (img, off) :: rest => runAddLayers (s.add_layer img off).1 rest

end CSPSTiff

namespace CSPSTiff

theorem normalize_shape0 (img : NpArray3) :
    (normalize img).shape0 = img.shape0 := by
  unfold normalize rgbaOf; split <;> rfl

theorem normalize_shape1 (img : NpArray3) :
    (normalize img).shape1 = img.shape1 := by
  unfold normalize rgbaOf; split <;> rfl

theorem add_layer_layers (s : CSPSTiff) (img : NpArray3) (offset : Int × Int) :
    (s.add_layer img offset).1.layers = s.layers ++ [(normalize img, offset)] := by
  unfold add_layer
  cases s.shape with
  | none => rfl
  | some sh => by_cases h : (normalize img).shape0 = sh.1 ∧ (normalize img).shape1 = sh.2 <;>
      simp_all [Prod.ext_iff]

theorem add_layer_shape (s : CSPSTiff) (img : NpArray3) (offset : Int × Int) :
    (s.add_layer img offset).1.shape =
      (match s.shape with
       | none => some (img.shape0, img.shape1)
       | some sh => some sh) := by
  unfold add_layer
  cases s.shape with
  | none => simp [normalize_shape0, normalize_shape1]
  | some sh => by_cases h : (normalize img).shape0 = sh.1 ∧ (normalize img).shape1 = sh.2 <;>
      simp_all [Prod.ext_iff]

theorem prepAux_length (n : Nat) (ls : List (NpArray3 × (Int × Int))) :
    (prepAux n ls).length = ls.length := by
  induction ls generalizing n with
  | nil => rfl
  | cons hd tl ih => cases hd; simp [prepAux, ih]

theorem prep_layers_length (s : CSPSTiff) :
    s.prep_layers.length = s.layers.length :=
  prepAux_length 0 s.layers

theorem prepAux_get (n : Nat) (ls : List (NpArray3 × (Int × Int))) (i : Nat)
    (h : i < ls.length) (h2 : i < (prepAux n ls).length) :
    (prepAux n ls).get ⟨i, h2⟩ =
      prepOne (n + i) (ls.get ⟨i, h⟩).1 (ls.get ⟨i, h⟩).2 := by
  induction ls generalizing n i with
  | nil => exact absurd h (by simp)
  | cons hd tl ih =>
      cases hd with
      | mk l off =>
          cases i with
          | zero => simp [prepAux]
          | succ j =>
              have hj : j < tl.length := by simpa using h
              have hj2 : j < (prepAux (n + 1) tl).length := by
                rw [prepAux_length]; exact hj
              simpa [prepAux, Nat.add_assoc, Nat.add_comm 1 j] using
                ih (n + 1) j hj hj2

theorem prepAux_mem (n : Nat) (ls : List (NpArray3 × (Int × Int)))
    (p : PsdLayer) (hp : p ∈ prepAux n ls) :
    ∃ k l off, p = prepOne k l off := by
  induction ls generalizing n with
  | nil => simp [prepAux] at hp
  | cons hd tl ih =>
      cases hd with
      | mk l off =>
          rcases List.mem_cons.mp hp with h | h
          · exact ⟨n, l, off, h⟩
          · exact ih (n + 1) h

theorem add_layer_notices_channel (s : CSPSTiff) (img : NpArray3)
    (off : Int × Int) (h : img.shape2 = 3) :
    Notice.channelCount ∈ (s.add_layer img off).2 := by
  unfold add_layer
  cases s.shape with
  | none => simp [h]
  | some sh =>
      by_cases hm : (normalize img).shape0 = sh.1 ∧ (normalize img).shape1 = sh.2 <;>
        simp_all [Prod.ext_iff]

end CSPSTiff

/-- A concrete 2×2 3-channel sample image. -/
def sampleRGB : NpArray3 :=
  { shape0 := 2, shape1 := 2, shape2 := 3, val := fun r c ch => 10 * r + 3 * c + ch }

/-- A concrete 2×2 4-channel sample image. -/
def sampleRGBA : NpArray3 :=
  { shape0 := 2, shape1 := 2, shape2 := 4, val := fun r c ch => r + c + ch }

/-- C1: with zero layers added, `write` fails with `EmptyInputError` for any
filepath; the check precedes encoding, so no `imwrite` call is produced and
the shared dictionary is untouched. -/
theorem C1_write_empty_raises (s : CSPSTiff) (d : ParamsDict) (fp : String)
    (b : Bool) (h : s.layers = []) :
    (s.write d fp b).1 = Except.error WriteError.EmptyInputError ∧
    (s.write d fp b).2 = d := by
  unfold CSPSTiff.write
  simp [h]

/-- Witness for C1 at a freshly constructed store. -/
theorem C1_write_empty_raises_witness :
    (CSPSTiff.init none).layers = [] ∧
    (((CSPSTiff.init none).write TIFFIMAGESOURCEDATA_PARAMS_DICT "out.tif" false).1 =
        Except.error WriteError.EmptyInputError ∧
      ((CSPSTiff.init none).write TIFFIMAGESOURCEDATA_PARAMS_DICT "out.tif" false).2 =
        TIFFIMAGESOURCEDATA_PARAMS_DICT) :=
  ⟨rfl, C1_write_empty_raises (CSPSTiff.init none) TIFFIMAGESOURCEDATA_PARAMS_DICT
    "out.tif" false rfl⟩

/-- C2: a 3-channel input is stored as a 4-channel layer whose alpha plane is
constantly 128, whose first three channels equal the input sample for sample,
and a non-fatal channel-count notice is emitted while the layer is still
appended (execution continues). -/
theorem C2_add_layer_three_channels (s : CSPSTiff) (img : NpArray3)
    (off : Int × Int) (h : img.shape2 = 3) :
    ∃ lpx : NpArray3,
      (s.add_layer img off).1.layers = s.layers ++ [(lpx, off)] ∧
      lpx.shape2 = 4 ∧
      (∀ r c, r < img.shape0 → c < img.shape1 → lpx.val r c 3 = 128) ∧
      (∀ r c ch, r < img.shape0 → c < img.shape1 → ch < 3 →
        lpx.val r c ch = img.val r c ch) ∧
      Notice.channelCount ∈ (s.add_layer img off).2 := by
  refine ⟨normalize img, s.add_layer_layers img off, ?_, ?_, ?_,
    s.add_layer_notices_channel img off h⟩
  · simp [normalize, h, rgbaOf]
  · intro r c _ _
    simp [normalize, h, rgbaOf]
  · intro r c ch _ _ hch
    simp [normalize, h, rgbaOf, hch]

/-- Witness for C2 at a concrete 2×2 3-channel image. -/
theorem C2_add_layer_three_channels_witness :
    sampleRGB.shape2 = 3 ∧
    (∃ lpx : NpArray3,
      ((CSPSTiff.init none).add_layer sampleRGB (0, 0)).1.layers =
        (CSPSTiff.init none).layers ++ [(lpx, (0, 0))] ∧
      lpx.shape2 = 4 ∧
      (∀ r c, r < sampleRGB.shape0 → c < sampleRGB.shape1 → lpx.val r c 3 = 128) ∧
      (∀ r c ch, r < sampleRGB.shape0 → c < sampleRGB.shape1 → ch < 3 →
        lpx.val r c ch = sampleRGB.val r c ch) ∧
      Notice.channelCount ∈ ((CSPSTiff.init none).add_layer sampleRGB (0, 0)).2) :=
  ⟨rfl, C2_add_layer_three_channels (CSPSTiff.init none) sampleRGB (0, 0) rfl⟩

/-- C3: when the canvas shape is unset the first `add_layer` sets it to the
layer's (height, width); once set, no `add_layer` call changes it; and a
layer whose (height, width) differs from the established shape is still
stored (same pixels as the normalized input, same height/width, its own
offset) with a shape-mismatch notice emitted. -/
theorem C3_canvas_shape (s : CSPSTiff) (img : NpArray3) (off : Int × Int) :
    (s.shape = none →
      (s.add_layer img off).1.shape = some (img.shape0, img.shape1)) ∧
    (∀ sh, s.shape = some sh → (s.add_layer img off).1.shape = some sh) ∧
    (∀ sh, s.shape = some sh → (img.shape0, img.shape1) ≠ sh →
      (s.add_layer img off).1.layers = s.layers ++ [(normalize img, off)] ∧
      (normalize img).shape0 = img.shape0 ∧
      (normalize img).shape1 = img.shape1 ∧
      Notice.shapeMismatch (img.shape0, img.shape1) sh ∈ (s.add_layer img off).2) := by
  refine ⟨?_, ?_, ?_⟩
  · intro h
    rw [s.add_layer_shape img off, h]
  · intro sh h
    rw [s.add_layer_shape img off, h]
  · intro sh h hm
    refine ⟨s.add_layer_layers img off, CSPSTiff.normalize_shape0 img,
      CSPSTiff.normalize_shape1 img, ?_⟩
    unfold CSPSTiff.add_layer
    rw [h]
    have hm' : ((normalize img).shape0, (normalize img).shape1) ≠ sh := by
      rwa [CSPSTiff.normalize_shape0, CSPSTiff.normalize_shape1]
    simp only [hm', ite_true, if_pos hm']
    rw [CSPSTiff.normalize_shape0, CSPSTiff.normalize_shape1]
    simp

/-- Witness for C3: a store with established shape (1, 1) receiving a 2×2
RGBA layer. -/
theorem C3_canvas_shape_witness :
    (CSPSTiff.init (some (1, 1))).shape = some (1, 1) ∧
    ((sampleRGBA.shape0, sampleRGBA.shape1) ≠ ((1 : Nat), (1 : Nat))) ∧
    (((CSPSTiff.init (some (1, 1))).add_layer sampleRGBA (3, 4)).1.layers =
        (CSPSTiff.init (some (1, 1))).layers ++ [(normalize sampleRGBA, (3, 4))] ∧
      (normalize sampleRGBA).shape0 = sampleRGBA.shape0 ∧
      (normalize sampleRGBA).shape1 = sampleRGBA.shape1 ∧
      Notice.shapeMismatch (sampleRGBA.shape0, sampleRGBA.shape1) (1, 1) ∈
        ((CSPSTiff.init (some (1, 1))).add_layer sampleRGBA (3, 4)).2) :=
  ⟨rfl, by decide,
    (C3_canvas_shape (CSPSTiff.init (some (1, 1))) sampleRGBA (3, 4)).2.2
      (1, 1) rfl (by decide)⟩

/-- A concrete store holding one layer at offset (3, 4). -/
def sampleStore : CSPSTiff :=
  { shape := some (2, 2), layers := [(sampleRGBA, (3, 4))] }

theorem runAddLayers_layers (s : CSPSTiff) (calls : List (NpArray3 × (Int × Int))) :
    (CSPSTiff.runAddLayers s calls).layers =
      s.layers ++ calls.map (fun p => (normalize p.1, p.2)) := by
  induction calls generalizing s with
  | nil => simp [CSPSTiff.runAddLayers]
  | cons hd tl ih =>
      cases hd with
      | mk img off =>
          rw [CSPSTiff.runAddLayers, ih, CSPSTiff.add_layer_layers]
          simp

/-- C4: the prepared metadata block has exactly one record per stored layer,
in insertion order, and the i-th record's rectangle is
(top, left, bottom, right) = (r, c, r + h, c + w) for the i-th stored layer's
offset (r, c) and pixel height/width (h, w). -/
theorem C4_prep_layers_records (s : CSPSTiff) (i : Nat)
    (h : i < s.layers.length) (hp : i < s.prep_layers.length) :
    s.prep_layers.length = s.layers.length ∧
    (s.prep_layers.get ⟨i, hp⟩).rectangle =
      { top := (s.layers.get ⟨i, h⟩).2.1
        left := (s.layers.get ⟨i, h⟩).2.2
        bottom := (s.layers.get ⟨i, h⟩).2.1 + ((s.layers.get ⟨i, h⟩).1.shape0 : Int)
        right := (s.layers.get ⟨i, h⟩).2.2 + ((s.layers.get ⟨i, h⟩).1.shape1 : Int) } := by
  refine ⟨s.prep_layers_length, ?_⟩
  have hg : s.prep_layers.get ⟨i, hp⟩ =
      CSPSTiff.prepOne (0 + i) (s.layers.get ⟨i, h⟩).1 (s.layers.get ⟨i, h⟩).2 :=
    CSPSTiff.prepAux_get 0 s.layers i h hp
  rw [hg]
  rfl

/-- Witness for C4 at a one-layer store. -/
theorem C4_prep_layers_records_witness :
    0 < sampleStore.layers.length ∧
    sampleStore.prep_layers.length = sampleStore.layers.length ∧
    (sampleStore.prep_layers.get ⟨0, by decide⟩).rectangle =
      { top := 3, left := 4, bottom := 5, right := 6 } := by
  have h := C4_prep_layers_records sampleStore 0 (by decide) (by decide)
  exact ⟨by decide, h.1, h.2.trans (by decide)⟩

/-- C5: starting from a fresh store (any construction shape), the layer added
by the Nth `add_layer` call (0-indexed) receives the metadata name
`layer_N`, whatever the layers' contents and offsets. -/
theorem C5_layer_names (shape : Option (Nat × Nat))
    (calls : List (NpArray3 × (Int × Int))) (N : Nat)
    (h : N < calls.length)
    (hp : N < (CSPSTiff.runAddLayers (CSPSTiff.init shape) calls).prep_layers.length) :
    ((CSPSTiff.runAddLayers (CSPSTiff.init shape) calls).prep_layers.get ⟨N, hp⟩).name =
      "layer_" ++ toString N := by
  have hlay : (CSPSTiff.runAddLayers (CSPSTiff.init shape) calls).layers =
      calls.map (fun p => (normalize p.1, p.2)) := by
    rw [runAddLayers_layers]
    rfl
  have hlen : N < (CSPSTiff.runAddLayers (CSPSTiff.init shape) calls).layers.length := by
    rw [hlay]
    simpa using h
  have hg : (CSPSTiff.runAddLayers (CSPSTiff.init shape) calls).prep_layers.get ⟨N, hp⟩ =
      CSPSTiff.prepOne (0 + N)
        ((CSPSTiff.runAddLayers (CSPSTiff.init shape) calls).layers.get ⟨N, hlen⟩).1
        ((CSPSTiff.runAddLayers (CSPSTiff.init shape) calls).layers.get ⟨N, hlen⟩).2 :=
    CSPSTiff.prepAux_get 0 (CSPSTiff.runAddLayers (CSPSTiff.init shape) calls).layers
      N hlen hp
  rw [hg]
  simp [CSPSTiff.prepOne]

/-- Witness for C5: the second of two added layers is named `layer_1`. -/
theorem C5_layer_names_witness :
    ((CSPSTiff.runAddLayers (CSPSTiff.init none)
        [(sampleRGB, (0, 0)), (sampleRGBA, (1, 2))]).prep_layers.get
      ⟨1, by decide⟩).name = "layer_1" := by
  have h := C5_layer_names none [(sampleRGB, (0, 0)), (sampleRGBA, (1, 2))] 1
    (by decide) (by decide)
  exact h.trans (by decide)

/-- C6: every prepared layer record carries blend mode NORMAL, opacity 255,
clipping BASE, the transparency-protected flag, and exactly four channel
entries — transparency mask (alpha), then channels 0, 1, 2 (R, G, B) — each
compressed with ZIP-with-prediction. -/
theorem C6_fixed_record_constants (s : CSPSTiff) (p : PsdLayer)
    (hp : p ∈ s.prep_layers) :
    p.blendmode = PsdBlendMode.NORMAL ∧
    p.opacity = 255 ∧
    p.clipping = PsdClippingType.BASE ∧
    PsdLayerFlag.TRANSPARENCY_PROTECTED ∈ p.flags ∧
    p.channels.length = 4 ∧
    p.channels.map PsdChannel.channelid =
      [PsdChannelId.TRANSPARENCY_MASK, PsdChannelId.CHANNEL0,
        PsdChannelId.CHANNEL1, PsdChannelId.CHANNEL2] ∧
    (∀ ch ∈ p.channels, ch.compression = PsdCompressionType.ZIP_PREDICTED) := by
  obtain ⟨k, l, off, rfl⟩ := CSPSTiff.prepAux_mem 0 s.layers p hp
  refine ⟨rfl, rfl, rfl, ?_, rfl, rfl, ?_⟩
  · simp [CSPSTiff.prepOne]
  · intro ch hch
    simp only [CSPSTiff.prepOne, List.mem_cons, List.not_mem_nil, or_false] at hch
    rcases hch with h | h | h | h <;> rw [h]

/-- Witness for C6 at the single record of the one-layer store. -/
theorem C6_fixed_record_constants_witness :
    CSPSTiff.prepOne 0 sampleRGBA (3, 4) ∈ sampleStore.prep_layers ∧
    ((CSPSTiff.prepOne 0 sampleRGBA (3, 4)).blendmode = PsdBlendMode.NORMAL ∧
      (CSPSTiff.prepOne 0 sampleRGBA (3, 4)).opacity = 255 ∧
      (CSPSTiff.prepOne 0 sampleRGBA (3, 4)).clipping = PsdClippingType.BASE ∧
      PsdLayerFlag.TRANSPARENCY_PROTECTED ∈ (CSPSTiff.prepOne 0 sampleRGBA (3, 4)).flags ∧
      (CSPSTiff.prepOne 0 sampleRGBA (3, 4)).channels.length = 4 ∧
      (CSPSTiff.prepOne 0 sampleRGBA (3, 4)).channels.map PsdChannel.channelid =
        [PsdChannelId.TRANSPARENCY_MASK, PsdChannelId.CHANNEL0,
          PsdChannelId.CHANNEL1, PsdChannelId.CHANNEL2] ∧
      (∀ ch ∈ (CSPSTiff.prepOne 0 sampleRGBA (3, 4)).channels,
        ch.compression = PsdCompressionType.ZIP_PREDICTED)) :=
  have hm : CSPSTiff.prepOne 0 sampleRGBA (3, 4) ∈ sampleStore.prep_layers :=
    List.mem_cons_self _ _
  ⟨hm, C6_fixed_record_constants sampleStore _ hm⟩

/-- The `PsdLayers` value `write` builds from a store's prepared layers. -/
def mkPsdLayers (s : CSPSTiff) : PsdLayers :=
  { key := PsdKey.LAYER
    has_transparency := false
    layers := s.prep_layers }

theorem write_ok (s : CSPSTiff) (d : ParamsDict) (fp : String)
    (h : s.layers ≠ []) :
    s.write d fp false =
      (Except.ok
        { filepath := fp
          data := overlay s.layers s.shape
          photometric := "rgb"
          compression := "adobe_deflate"
          resolution := ((720000, 10000), (720000, 10000))
          resolutionunit := "inch"
          metadata := none
          extratags :=
            [ ExtraTag.imageSourceDataTag
                (TiffImageSourceData.ofParams { d with layers := some (mkPsdLayers s) })
            , ExtraTag.byteTag 34675 7 none ICCProfileBytes.srgb true ] },
       { d with layers := none }) := by
  have hl : ¬ s.layers.length = 0 := by simpa using h
  unfold CSPSTiff.write
  rw [if_neg hl]
  rfl

theorem write_fail (s : CSPSTiff) (d : ParamsDict) (fp : String)
    (h : s.layers ≠ []) :
    s.write d fp true =
      (Except.error WriteError.FileWriteError,
       { d with layers := some (mkPsdLayers s) }) := by
  have hl : ¬ s.layers.length = 0 := by simpa using h
  unfold CSPSTiff.write
  rw [if_neg hl]
  rfl

/-- C7: with the same store state and no intervening `add_layer`, two
consecutive `write` calls (threading the shared dictionary from the first
call into the second) both succeed and record identical `imwrite` calls; in
particular the primary raster data is identical. -/
theorem C7_write_twice_deterministic (s : CSPSTiff) (d : ParamsDict) (fp : String)
    (h : s.layers ≠ []) :
    (∃ t : TiffWriteCall, (s.write d fp false).1 = Except.ok t) ∧
    (s.write ((s.write d fp false).2) fp false).1 = (s.write d fp false).1 := by
  constructor
  · exact ⟨_, by rw [write_ok s d fp h]⟩
  · simp only [write_ok s d fp h]
    simp only [write_ok s { d with layers := none } fp h]

/-- Witness for C7 at a concrete one-layer store. -/
theorem C7_write_twice_deterministic_witness :
    sampleStore.layers ≠ [] ∧
    ((∃ t : TiffWriteCall,
        (sampleStore.write TIFFIMAGESOURCEDATA_PARAMS_DICT "out.tif" false).1 =
          Except.ok t) ∧
      (sampleStore.write
          ((sampleStore.write TIFFIMAGESOURCEDATA_PARAMS_DICT "out.tif" false).2)
          "out.tif" false).1 =
        (sampleStore.write TIFFIMAGESOURCEDATA_PARAMS_DICT "out.tif" false).1) :=
  have hne : sampleStore.layers ≠ [] := List.cons_ne_nil _ _
  ⟨hne, C7_write_twice_deterministic sampleStore TIFFIMAGESOURCEDATA_PARAMS_DICT
    "out.tif" hne⟩

/-- C8: a successful `write` records exactly the fixed container parameters:
photometric rgb, adobe-deflate compression, resolution 720000/10000 on both
axes in inches, no generic metadata, the image-source-data tag built from the
dictionary with this call's layers, and extra tag 34675 with the sRGB ICC
profile bytes and the write-even-if-duplicate flag set. -/
theorem C8_write_fixed_parameters (s : CSPSTiff) (d : ParamsDict) (fp : String)
    (h : s.layers ≠ []) :
    (s.write d fp false).1 =
      Except.ok
        { filepath := fp
          data := overlay s.layers s.shape
          photometric := "rgb"
          compression := "adobe_deflate"
          resolution := ((720000, 10000), (720000, 10000))
          resolutionunit := "inch"
          metadata := none
          extratags :=
            [ ExtraTag.imageSourceDataTag
                (TiffImageSourceData.ofParams { d with layers := some (mkPsdLayers s) })
            , ExtraTag.byteTag 34675 7 none ICCProfileBytes.srgb true ] } := by
  rw [write_ok s d fp h]

/-- Witness for C8 at a concrete one-layer store. -/
theorem C8_write_fixed_parameters_witness :
    sampleStore.layers ≠ [] ∧
    (sampleStore.write TIFFIMAGESOURCEDATA_PARAMS_DICT "out.tif" false).1 =
      Except.ok
        { filepath := "out.tif"
          data := overlay sampleStore.layers sampleStore.shape
          photometric := "rgb"
          compression := "adobe_deflate"
          resolution := ((720000, 10000), (720000, 10000))
          resolutionunit := "inch"
          metadata := none
          extratags :=
            [ ExtraTag.imageSourceDataTag
                (TiffImageSourceData.ofParams
                  { TIFFIMAGESOURCEDATA_PARAMS_DICT with
                      layers := some (mkPsdLayers sampleStore) })
            , ExtraTag.byteTag 34675 7 none ICCProfileBytes.srgb true ] } :=
  have hne : sampleStore.layers ≠ [] := List.cons_ne_nil _ _
  ⟨hne, C8_write_fixed_parameters sampleStore TIFFIMAGESOURCEDATA_PARAMS_DICT
    "out.tif" hne⟩

/-- C9: `write` threads the shared parameter dictionary through its `layers`
entry: after a successful call the entry is `None`; if the file-writing step
raises, the error propagates and the entry is left holding this call's
prepared layer list (the restore is skipped), so the shared state is not
unchanged on error. -/
theorem C9_shared_dict_threading (s : CSPSTiff) (d : ParamsDict) (fp : String)
    (h : s.layers ≠ []) :
    (s.write d fp false).2 = { d with layers := none } ∧
    (s.write d fp true).1 = Except.error WriteError.FileWriteError ∧
    (s.write d fp true).2 = { d with layers := some (mkPsdLayers s) } := by
  refine ⟨?_, ?_, ?_⟩
  · rw [write_ok s d fp h]
  · rw [write_fail s d fp h]
  · rw [write_fail s d fp h]

/-- Witness for C9 at a concrete one-layer store. -/
theorem C9_shared_dict_threading_witness :
    sampleStore.layers ≠ [] ∧
    ((sampleStore.write TIFFIMAGESOURCEDATA_PARAMS_DICT "out.tif" false).2 =
        { TIFFIMAGESOURCEDATA_PARAMS_DICT with layers := none } ∧
      (sampleStore.write TIFFIMAGESOURCEDATA_PARAMS_DICT "out.tif" true).1 =
        Except.error WriteError.FileWriteError ∧
      (sampleStore.write TIFFIMAGESOURCEDATA_PARAMS_DICT "out.tif" true).2 =
        { TIFFIMAGESOURCEDATA_PARAMS_DICT with
            layers := some (mkPsdLayers sampleStore) }) :=
  have hne : sampleStore.layers ≠ [] := List.cons_ne_nil _ _
  ⟨hne, C9_shared_dict_threading sampleStore TIFFIMAGESOURCEDATA_PARAMS_DICT
    "out.tif" hne⟩

theorem add_layer_notices_no_channel (s : CSPSTiff) (img : NpArray3)
    (off : Int × Int) (h : img.shape2 ≠ 3) :
    Notice.channelCount ∉ (s.add_layer img off).2 := by
  unfold CSPSTiff.add_layer
  cases s.shape with
  | none => simp [h]
  | some sh =>
      by_cases hm : (normalize img).shape0 = sh.1 ∧ (normalize img).shape1 = sh.2 <;>
        simp_all [Prod.ext_iff]

/-- Counterexample to C10 as stated: a 4-channel 2×2 layer added to a store
whose established canvas shape is (1, 1) does trigger a diagnostic — the
shape-mismatch notice — even though its third dimension is not 3. -/
theorem C10_no_diagnostic_counterexample :
    sampleRGBA.shape2 ≠ 3 ∧
    ((CSPSTiff.init (some (1, 1))).add_layer sampleRGBA (0, 0)).2 =
      [Notice.shapeMismatch (2, 2) (1, 1)] ∧
    ((CSPSTiff.init (some (1, 1))).add_layer sampleRGBA (0, 0)).2 ≠ [] := by
  refine ⟨by decide, by decide, by decide⟩

/-- C10 (amended): an array whose third dimension is not 3 is appended to the
layer list unchanged — no channel-count diagnostic, no alpha synthesis, no
rejection (a shape-mismatch diagnostic may still be emitted when its
height/width differ from the established canvas shape) — and every
`add_layer` call appends exactly one (pixels, offset) entry while leaving all
previously stored entries unchanged. -/
theorem C10_non_three_channels_unchanged (s : CSPSTiff) (img : NpArray3)
    (off : Int × Int) (h : img.shape2 ≠ 3) :
    (s.add_layer img off).1.layers = s.layers ++ [(img, off)] ∧
    Notice.channelCount ∉ (s.add_layer img off).2 ∧
    (∀ (img2 : NpArray3) (off2 : Int × Int),
      (s.add_layer img2 off2).1.layers = s.layers ++ [(normalize img2, off2)]) := by
  refine ⟨?_, add_layer_notices_no_channel s img off h, ?_⟩
  · have := s.add_layer_layers img off
    rwa [normalize, if_neg h] at this
  · intro img2 off2
    exact s.add_layer_layers img2 off2

/-- Witness for the amended C10 at a concrete 4-channel layer. -/
theorem C10_non_three_channels_unchanged_witness :
    sampleRGBA.shape2 ≠ 3 ∧
    (((CSPSTiff.init (some (1, 1))).add_layer sampleRGBA (0, 0)).1.layers =
        (CSPSTiff.init (some (1, 1))).layers ++ [(sampleRGBA, (0, 0))] ∧
      Notice.channelCount ∉ ((CSPSTiff.init (some (1, 1))).add_layer sampleRGBA (0, 0)).2 ∧
      (∀ (img2 : NpArray3) (off2 : Int × Int),
        ((CSPSTiff.init (some (1, 1))).add_layer img2 off2).1.layers =
          (CSPSTiff.init (some (1, 1))).layers ++ [(normalize img2, off2)])) :=
  ⟨by decide, C10_non_three_channels_unchanged (CSPSTiff.init (some (1, 1)))
    sampleRGBA (0, 0) (by decide)⟩

end PSTiff
